import Mathlib

/-!
Verification of the hover-tool hit resolution, tooltip rendering and tooltip
positioning subsystems of `src/bokehjs/src/lib/models/tools/inspectors/hover_tool.ts`
(together with the appended `Tooltip`/`TooltipView` source).

Screen and data coordinates are modelled as rational numbers.  Coordinate
arrays (`glyph.sx`, `glyph._x`, ...) are modelled as total functions `ℕ → ℚ`,
read at the indices the source reads.
-/

/-- Direction of a span geometry, `"h"` or `"v"` in the source. -/
inductive SpanDirection where
  | h
  | v
deriving DecidableEq, Repr

/-- `core/geometry`: a `PointGeometry` or a `SpanGeometry`, as consumed by the
hit-resolution helpers (`geometry.type` and `geometry.direction` are the only
fields `_nearest_line_hit` inspects; `sx`/`sy` are carried for fidelity). -/
inductive Geometry where
  | point (sx sy : ℚ)
  | span (direction : SpanDirection) (sx sy : ℚ)
deriving DecidableEq, Repr

/-- `core/enums`: `LinePolicy = "prev" | "next" | "nearest" | "interp" | "none"`. -/
inductive LinePolicy where
  | prev
  | next
  | nearest
  | interp
  | none
deriving DecidableEq, Repr

/-- Modelled from the spec: `core/hittest.dist_2_pts` (the Euclidean distance
between two points) is not among the sources.  It is modelled as the squared
Euclidean distance, which induces exactly the same strict order and the same
ties on distances as the Euclidean distance itself, so every comparison made
by `_nearest_line_hit` is unchanged by this representation. -/
def dist_2_pts (p q : ℚ × ℚ) : ℚ :=
  (p.1 - q.1) * (p.1 - q.1) + (p.2 - q.2) * (p.2 - q.2)

/-- `_nearest_line_hit` from `hover_tool.ts` (lines 52 to 77): compare the
distance from the pointer `(sx, sy)` to sample `i` and to sample `i+1` of the
coordinate arrays `dx`, `dy` (one axis for a span geometry, point distance
otherwise) and return the coordinates and index of the closer sample. -/
def _nearest_line_hit (i : ℕ) (geometry : Geometry) (sx sy : ℚ)
    (dx dy : ℕ → ℚ) : (ℚ × ℚ) × ℕ :=
  let d1x := dx i
  let d1y := dy i
  let d2x := dx (i + 1)
  let d2y := dy (i + 1)
  let dist1 :=
    match geometry with
    | .span .h _ _ => |d1x - sx|
    | .span .v _ _ => |d1y - sy|
    | .point _ _ => dist_2_pts (d1x, d1y) (sx, sy)
  let dist2 :=
    match geometry with
    | .span .h _ _ => |d2x - sx|
    | .span .v _ _ => |d2y - sy|
    | .point _ _ => dist_2_pts (d2x, d2y) (sx, sy)
  if dist1 < dist2 then ((d1x, d1y), i) else ((d2x, d2y), i + 1)

/-- `_line_hit` from `hover_tool.ts` (lines 79 to 81). -/
def _line_hit (xs ys : ℕ → ℚ) (ind : ℕ) : (ℚ × ℚ) × ℕ :=
  ((xs ind, ys ind), ind)

/-- The `line_policy` switch of `HoverToolView._update` for a `LineView` glyph
(lines 292 to 334): given the policy, the interpolation routine of the glyph
(`glyph.get_interpolation_hit`, external), the coordinate scales
(`xscale.compute`, `yscale.compute`, external), the data-space coordinate
arrays `gx`, `gy` (`glyph._x`, `glyph._y`), the screen-space arrays `gsx`,
`gsy` (`glyph.sx`, `glyph.sy`), the segment index `i`, the geometry and the
pointer screen position, produce `((tt_x, tt_y), (tt_sx, tt_sy), ii)`: the
reported data coordinates, screen anchor, and canonical index.  The source
initialises `tt_x`, `tt_y` to sample `i+1` and `ii` to `i` before the switch,
which is reflected in each branch below. -/
def resolve_line_policy (policy : LinePolicy)
    (interp_hit : ℕ → Geometry → ℚ × ℚ) (xcompute ycompute : ℚ → ℚ)
    (gx gy gsx gsy : ℕ → ℚ) (i : ℕ) (geometry : Geometry) (sx sy : ℚ) :
    (ℚ × ℚ) × (ℚ × ℚ) × ℕ :=
  match policy with
  | .interp =>
    let p := interp_hit i geometry
    (p, (xcompute p.1, ycompute p.2), i)
  | .prev =>
    let r := _line_hit gsx gsy i
    ((gx (i + 1), gy (i + 1)), r.1, r.2)
  | .next =>
    let r := _line_hit gsx gsy (i + 1)
    ((gx (i + 1), gy (i + 1)), r.1, r.2)
  | .nearest =>
    let r := _nearest_line_hit i geometry sx sy gsx gsy
    ((gx r.2, gy r.2), r.1, r.2)
  | .none => ((gx (i + 1), gy (i + 1)), (sx, sy), i)

/-- The `line_policy` switch of `HoverToolView._update` for a `MultiLineView`
glyph (lines 350 to 395): per (outer index `i`, inner segment index `j`) pair,
with the per-outer-path coordinate series `gxs i`, `gys i` (`glyph._xs.get(i)`,
`glyph._ys.get(i)`) and `gsxs i`, `gsys i` (`glyph.sxs.get(i)`,
`glyph.sys.get(i)`).  The source initialises `tt_x`, `tt_y` to sample `j` and
`jj` to `j`; its `default` branch throws
`new Error("shouldn't have happened")`, modelled as `Except.error`. -/
def resolve_multiline_policy (policy : LinePolicy)
    (interp_hit : ℕ → ℕ → Geometry → ℚ × ℚ) (xcompute ycompute : ℚ → ℚ)
    (gxs gys gsxs gsys : ℕ → ℕ → ℚ) (i j : ℕ) (geometry : Geometry)
    (sx sy : ℚ) : Except String ((ℚ × ℚ) × (ℚ × ℚ) × ℕ) :=
  match policy with
  | .interp =>
    let p := interp_hit i j geometry
    .ok (p, (xcompute p.1, ycompute p.2), j)
  | .prev =>
    let r := _line_hit (gsxs i) (gsys i) j
    .ok ((gxs i j, gys i j), r.1, r.2)
  | .next =>
    let r := _line_hit (gsxs i) (gsys i) (j + 1)
    .ok ((gxs i j, gys i j), r.1, r.2)
  | .nearest =>
    let r := _nearest_line_hit j geometry sx sy (gsxs i) (gsys i)
    .ok ((gxs i r.2, gys i r.2), r.1, r.2)
  | .none => .error "shouldn\x27t have happened"

/-- The genuine Euclidean distance between the sample `(px, py)` and the
pointer `(qx, qy)`, stated over the reals; used to phrase the specification
side of the `nearest`-policy claims. -/
noncomputable def euclid_dist (px py qx qy : ℚ) : ℝ :=
  Real.sqrt (((px : ℝ) - qx) ^ 2 + ((py : ℝ) - qy) ^ 2)

/-- Example coordinate array with samples at x = 0 and x = 10. -/
def example_dx : ℕ → ℚ := fun j => if j = 0 then 0 else 10

/-- Example coordinate array with all samples at y = 0. -/
def example_dy : ℕ → ℚ := fun _ => 0

/-- Degenerate coordinate array whose samples all coincide at 0. -/
def const0 : ℕ → ℚ := fun _ => 0

theorem dist_2_pts_cast (px py qx qy : ℚ) :
    euclid_dist px py qx qy = Real.sqrt ((dist_2_pts (px, py) (qx, qy) : ℚ) : ℝ) := by
  unfold euclid_dist dist_2_pts
  push_cast
  ring_nf

theorem euclid_lt_of_sqrt (a b : ℚ) (h0 : 0 ≤ a)
    (h : Real.sqrt (a : ℝ) < Real.sqrt (b : ℝ)) : a < b := by
  have := (Real.sqrt_lt_sqrt_iff (x := (a : ℝ)) (by exact_mod_cast h0)).mp h
  exact_mod_cast this

theorem dist_2_pts_nonneg (p q : ℚ × ℚ) : 0 ≤ dist_2_pts p q :=
  add_nonneg (mul_self_nonneg _) (mul_self_nonneg _)

/-- C1: for every segment index `i`, pointer position `(sx, sy)` and coordinate
arrays `dx`, `dy`, `_nearest_line_hit` compares the distance from the pointer
to sample `i` and to sample `i+1` (the single relevant axis component for a
span geometry; the Euclidean distance for a point geometry) and returns the
coordinates and index of whichever sample is strictly closer; in particular
for a segment with samples at `(0, 0)` and `(10, 0)` and a point-mode pointer
at `(3, 0)` it returns anchor `(0, 0)` with index `i`, and at `(8, 0)` it
returns `(10, 0)` with index `i+1`. -/
theorem nearest_line_hit_spec (i : ℕ) (sx sy : ℚ) (dx dy : ℕ → ℚ) :
    (|dx i - sx| < |dx (i + 1) - sx| →
      _nearest_line_hit i (Geometry.span .h sx sy) sx sy dx dy = ((dx i, dy i), i)) ∧
    (|dx (i + 1) - sx| < |dx i - sx| →
      _nearest_line_hit i (Geometry.span .h sx sy) sx sy dx dy =
        ((dx (i + 1), dy (i + 1)), i + 1)) ∧
    (|dy i - sy| < |dy (i + 1) - sy| →
      _nearest_line_hit i (Geometry.span .v sx sy) sx sy dx dy = ((dx i, dy i), i)) ∧
    (|dy (i + 1) - sy| < |dy i - sy| →
      _nearest_line_hit i (Geometry.span .v sx sy) sx sy dx dy =
        ((dx (i + 1), dy (i + 1)), i + 1)) ∧
    (euclid_dist (dx i) (dy i) sx sy < euclid_dist (dx (i + 1)) (dy (i + 1)) sx sy →
      _nearest_line_hit i (Geometry.point sx sy) sx sy dx dy = ((dx i, dy i), i)) ∧
    (euclid_dist (dx (i + 1)) (dy (i + 1)) sx sy < euclid_dist (dx i) (dy i) sx sy →
      _nearest_line_hit i (Geometry.point sx sy) sx sy dx dy =
        ((dx (i + 1), dy (i + 1)), i + 1)) ∧
    _nearest_line_hit 0 (Geometry.point 3 0) 3 0 example_dx example_dy = ((0, 0), 0) ∧
    _nearest_line_hit 0 (Geometry.point 8 0) 8 0 example_dx example_dy = ((10, 0), 1) := by
  refine ⟨?_, ?_, ?_, ?_, ?_, ?_,
    by norm_num [_nearest_line_hit, dist_2_pts, example_dx, example_dy],
    by norm_num [_nearest_line_hit, dist_2_pts, example_dx, example_dy]⟩
  · intro h
    simp only [_nearest_line_hit]
    rw [if_pos h]
  · intro h
    simp only [_nearest_line_hit]
    rw [if_neg (lt_asymm h)]
  · intro h
    simp only [_nearest_line_hit]
    rw [if_pos h]
  · intro h
    simp only [_nearest_line_hit]
    rw [if_neg (lt_asymm h)]
  · intro h
    rw [dist_2_pts_cast, dist_2_pts_cast] at h
    have h' := euclid_lt_of_sqrt _ _ (dist_2_pts_nonneg _ _) h
    simp only [_nearest_line_hit]
    rw [if_pos h']
  · intro h
    rw [dist_2_pts_cast, dist_2_pts_cast] at h
    have h' := euclid_lt_of_sqrt _ _ (dist_2_pts_nonneg _ _) h
    simp only [_nearest_line_hit]
    rw [if_neg (lt_asymm h')]

theorem nearest_line_hit_spec_witness :
    euclid_dist (example_dx 0) (example_dy 0) 3 0 <
      euclid_dist (example_dx 1) (example_dy 1) 3 0 ∧
    _nearest_line_hit 0 (Geometry.point 3 0) 3 0 example_dx example_dy = ((0, 0), 0) := by
  have h9 : ((dist_2_pts (example_dx 0, example_dy 0) (3, 0) : ℚ) : ℝ) = 9 := by
    norm_num [dist_2_pts, example_dx, example_dy]
  have h49 : ((dist_2_pts (example_dx 1, example_dy 1) (3, 0) : ℚ) : ℝ) = 49 := by
    norm_num [dist_2_pts, example_dx, example_dy]
  have h : euclid_dist (example_dx 0) (example_dy 0) 3 0 <
      euclid_dist (example_dx 1) (example_dy 1) 3 0 := by
    rw [dist_2_pts_cast, dist_2_pts_cast, h9, h49]
    exact Real.sqrt_lt_sqrt (by norm_num) (by norm_num)
  exact ⟨h, (nearest_line_hit_spec 0 3 0 example_dx example_dy).2.2.2.2.1 h⟩

/-- C10: whenever the distance from the pointer to sample `i` equals the
distance to sample `i+1` (including degenerate segments whose two samples
coincide), `_nearest_line_hit` returns the coordinates and index of the upper
sample `i+1`, never of sample `i`: the source only takes the lower branch on
a strict `dist1 < dist2`. -/
theorem nearest_line_hit_tie (i : ℕ) (sx sy : ℚ) (dx dy : ℕ → ℚ) :
    (|dx i - sx| = |dx (i + 1) - sx| →
      _nearest_line_hit i (Geometry.span .h sx sy) sx sy dx dy =
        ((dx (i + 1), dy (i + 1)), i + 1)) ∧
    (|dy i - sy| = |dy (i + 1) - sy| →
      _nearest_line_hit i (Geometry.span .v sx sy) sx sy dx dy =
        ((dx (i + 1), dy (i + 1)), i + 1)) ∧
    (euclid_dist (dx i) (dy i) sx sy = euclid_dist (dx (i + 1)) (dy (i + 1)) sx sy →
      _nearest_line_hit i (Geometry.point sx sy) sx sy dx dy =
        ((dx (i + 1), dy (i + 1)), i + 1)) := by
  refine ⟨?_, ?_, ?_⟩
  · intro h
    simp only [_nearest_line_hit]
    rw [if_neg (by rw [h]; exact lt_irrefl _)]
  · intro h
    simp only [_nearest_line_hit]
    rw [if_neg (by rw [h]; exact lt_irrefl _)]
  · intro h
    rw [dist_2_pts_cast, dist_2_pts_cast] at h
    have c1 : (0 : ℝ) ≤ ((dist_2_pts (dx i, dy i) (sx, sy) : ℚ) : ℝ) := by
      exact_mod_cast dist_2_pts_nonneg _ _
    have c2 : (0 : ℝ) ≤ ((dist_2_pts (dx (i + 1), dy (i + 1)) (sx, sy) : ℚ) : ℝ) := by
      exact_mod_cast dist_2_pts_nonneg _ _
    have h' : dist_2_pts (dx i, dy i) (sx, sy) =
        dist_2_pts (dx (i + 1), dy (i + 1)) (sx, sy) := by
      exact_mod_cast (Real.sqrt_inj c1 c2).mp h
    simp only [_nearest_line_hit]
    rw [if_neg (by rw [h']; exact lt_irrefl _)]

theorem nearest_line_hit_tie_witness :
    euclid_dist (const0 0) (const0 0) 1 1 = euclid_dist (const0 1) (const0 1) 1 1 ∧
    _nearest_line_hit 0 (Geometry.point 1 1) 1 1 const0 const0 = ((0, 0), 1) :=
  ⟨rfl, (nearest_line_hit_tie 0 1 1 const0 const0).2.2 rfl⟩

/-- C2: the `prev` and `next` line policies are pure functions of the segment
index and the coordinate arrays; they never consult the pointer position.  For
every segment index `i` and any two geometries and pointer positions, the
whole resolution result is identical across the two runs, the `prev` screen
anchor and canonical index are those of sample `i`, and the `next` ones are
those of sample `i+1`. -/
theorem line_policy_prev_next_pure (interp_hit : ℕ → Geometry → ℚ × ℚ)
    (xcompute ycompute : ℚ → ℚ) (gx gy gsx gsy : ℕ → ℚ) (i : ℕ)
    (g1 g2 : Geometry) (sx1 sy1 sx2 sy2 : ℚ) :
    resolve_line_policy .prev interp_hit xcompute ycompute gx gy gsx gsy i g1 sx1 sy1 =
      resolve_line_policy .prev interp_hit xcompute ycompute gx gy gsx gsy i g2 sx2 sy2 ∧
    resolve_line_policy .next interp_hit xcompute ycompute gx gy gsx gsy i g1 sx1 sy1 =
      resolve_line_policy .next interp_hit xcompute ycompute gx gy gsx gsy i g2 sx2 sy2 ∧
    (resolve_line_policy .prev interp_hit xcompute ycompute gx gy gsx gsy i g1 sx1 sy1).2 =
      ((gsx i, gsy i), i) ∧
    (resolve_line_policy .next interp_hit xcompute ycompute gx gy gsx gsy i g1 sx1 sy1).2 =
      ((gsx (i + 1), gsy (i + 1)), i + 1) :=
  ⟨rfl, rfl, rfl, rfl⟩

/-- C7: for a multi-segment (multi-line) glyph hit, the policy switch raises
the fatal programming-error condition `Error("shouldn\x27t have happened")`
exactly when the line policy falls outside `{interp, prev, next, nearest}`
(that is, on the `none` policy, the only remaining enumeration value); every
other policy returns an ordinary result. -/
theorem multiline_default_policy_error (policy : LinePolicy)
    (interp_hit : ℕ → ℕ → Geometry → ℚ × ℚ) (xcompute ycompute : ℚ → ℚ)
    (gxs gys gsxs gsys : ℕ → ℕ → ℚ) (i j : ℕ) (geometry : Geometry) (sx sy : ℚ) :
    (resolve_multiline_policy policy interp_hit xcompute ycompute gxs gys gsxs gsys
        i j geometry sx sy = Except.error "shouldn\x27t have happened") ↔
      policy = LinePolicy.none := by
  cases policy <;> simp [resolve_multiline_policy]

/-- `core/enums`: `TooltipAttachment = "horizontal" | "vertical" | "left" | "right" | "above" | "below"`. -/
inductive TooltipAttachment where
  | horizontal
  | vertical
  | left
  | right
  | above
  | below
deriving DecidableEq, Repr

/-- The side of the anchor on which the tooltip is placed, computed by
`TooltipView._reposition`. -/
inductive Side where
  | left
  | right
  | above
  | below
deriving DecidableEq, Repr

/-- `core/enums`: the named anchor tokens accepted by `Tooltip.position`. -/
inductive Anchor where
  | top_left
  | top
  | top_center
  | top_right
  | center_left
  | center
  | center_center
  | center_right
  | bottom_left
  | bottom
  | bottom_center
  | bottom_right
deriving DecidableEq, Repr

/-- Vertical alignment, `core/enums` `VAlign`. -/
inductive VAlign where
  | top
  | center
  | bottom
deriving DecidableEq, Repr

/-- Horizontal alignment, `core/enums` `HAlign`. -/
inductive HAlign where
  | left
  | center
  | right
deriving DecidableEq, Repr

/-- Modelled from the spec: the bounding box of the containing surface
(`bounding_box(this.target).relative()`, external to the sources), with its
edge coordinates and its horizontal and vertical center. -/
structure BBox where
  left : ℚ
  right : ℚ
  top : ℚ
  bottom : ℚ
deriving DecidableEq, Repr

def BBox.hcenter (b : BBox) : ℚ := (b.left + b.right) / 2

def BBox.vcenter (b : BBox) : ℚ := (b.top + b.bottom) / 2

/-- A `Tooltip.position` value: a named anchor token or literal screen
coordinates (`Anchor | [number, number]`). -/
inductive Position where
  | named (a : Anchor)
  | coords (sx sy : ℚ)
deriving DecidableEq, Repr

/-- `TooltipView._anchor_to_align` (tooltip source, lines 700 to 728). -/
def _anchor_to_align : Anchor → VAlign × HAlign
  | .top_left => (.top, .left)
  | .top => (.top, .center)
  | .top_center => (.top, .center)
  | .top_right => (.top, .right)
  | .center_left => (.center, .left)
  | .center => (.center, .center)
  | .center_center => (.center, .center)
  | .center_right => (.center, .right)
  | .bottom_left => (.bottom, .left)
  | .bottom => (.bottom, .center)
  | .bottom_center => (.bottom, .center)
  | .bottom_right => (.bottom, .right)

/-- The anchor resolution step of `TooltipView._reposition` (lines 740 to 760):
a named anchor token is mapped to an alignment pair and read off the bounding
box; literal coordinates are used directly. -/
def resolve_position (pos : Position) (bbox : BBox) : ℚ × ℚ :=
  match pos with
  | .named a =>
    let va := (_anchor_to_align a).1
    let ha := (_anchor_to_align a).2
    let sx :=
      match ha with
      | .left => bbox.left
      | .center => bbox.hcenter
      | .right => bbox.right
    let sy :=
      match va with
      | .top => bbox.top
      | .center => bbox.vcenter
      | .bottom => bbox.bottom
    (sx, sy)
  | .coords sx sy => (sx, sy)

/-- The side selection step of `TooltipView._reposition` (lines 762 to 772). -/
def select_side (attachment : TooltipAttachment) (sx sy : ℚ) (bbox : BBox) : Side :=
  match attachment with
  | .horizontal => if sx < bbox.hcenter then .right else .left
  | .vertical => if sy < bbox.vcenter then .below else .above
  | .left => .left
  | .right => .right
  | .above => .above
  | .below => .below

/-- The element dimensions read by `TooltipView._reposition`
(`offsetWidth`, `clientWidth`, `offsetHeight`, `clientHeight`). -/
structure ElDims where
  offsetWidth : ℚ
  clientWidth : ℚ
  offsetHeight : ℚ
  clientHeight : ℚ
deriving DecidableEq, Repr

/-- The style state of the tooltip element that `_reposition` mutates:
whether it is displayed, which (at most one) of the four positional CSS
classes is applied, and the written `top`/`left`/`right` styles (`Option.none`
for a style written as the empty string). -/
structure ElStyle where
  displayed : Bool
  sideClass : Option Side
  top : Option ℚ
  left : Option ℚ
  right : Option ℚ
deriving DecidableEq, Repr

/-- `const arrow_size = 10` from the tooltip source. -/
def arrow_size : ℚ := 10

/-- `Math.round`, JavaScript semantics: round half away from zero upward,
that is `ā(q + 1/2)ā`. -/
def jround (q : ℚ) : ℤ := ⌊q + 1 / 2⌋

/-- `TooltipView._reposition` (tooltip source, lines 730 to 811) as a
transformer of the element style state: when the position is null or the
tooltip is not visible, the element is undisplayed and everything else is
left untouched; otherwise the anchor is resolved, a side is chosen, exactly
one side class is applied (the CSS class names are relative to the tooltip,
hence swapped with respect to the side), and `top`/`left`/`right` are
written. -/
def _reposition (position : Option Position) (visible : Bool)
    (attachment : TooltipAttachment) (bbox : BBox) (dims : ElDims)
    (st : ElStyle) : ElStyle :=
  match position, visible with
  | some pos, true =>
    let a := resolve_position pos bbox
    let sx := a.1
    let sy := a.2
    match select_side attachment sx sy bbox with
    | .right =>
      { displayed := true, sideClass := some .left,
        top := some (sy - dims.offsetHeight / 2),
        left := some (sx + (dims.offsetWidth - dims.clientWidth) + arrow_size),
        right := none }
    | .left =>
      { displayed := true, sideClass := some .right,
        top := some (sy - dims.offsetHeight / 2),
        left := none,
        right := some ((dims.offsetWidth - sx) + arrow_size) }
    | .below =>
      { displayed := true, sideClass := some .above,
        top := some (sy + (dims.offsetHeight - dims.clientHeight) + arrow_size),
        left := some ((jround (sx - dims.offsetWidth / 2) : ℚ)),
        right := none }
    | .above =>
      { displayed := true, sideClass := some .below,
        top := some (sy - dims.offsetHeight - arrow_size),
        left := some ((jround (sx - dims.offsetWidth / 2) : ℚ)),
        right := none }
  | _, _ => { st with displayed := false }

/-- The [0,100] x [0,100] bounding box of the concrete side-selection
examples. -/
def bbox0100 : BBox := { left := 0, right := 100, top := 0, bottom := 100 }

/-- C3: the side chosen by the reposition routine is `right` for a
`horizontal` attachment exactly when the anchor x is strictly left of the
horizontal center (else `left`), `below` for a `vertical` attachment exactly
when the anchor y is strictly above the vertical center (else `above`), and
any explicit fixed-side attachment unconditionally; on the box
[0,100] x [0,100], a horizontal attachment selects `right` at x = 20 and
`left` at x = 80, and a vertical attachment selects `above` at y = 90. -/
theorem reposition_side_selection (sx sy : ℚ) (bbox : BBox) :
    select_side .horizontal sx sy bbox =
      (if sx < bbox.hcenter then Side.right else Side.left) ∧
    select_side .vertical sx sy bbox =
      (if sy < bbox.vcenter then Side.below else Side.above) ∧
    select_side .left sx sy bbox = Side.left ∧
    select_side .right sx sy bbox = Side.right ∧
    select_side .above sx sy bbox = Side.above ∧
    select_side .below sx sy bbox = Side.below ∧
    select_side .horizontal 20 50 bbox0100 = Side.right ∧
    select_side .horizontal 80 50 bbox0100 = Side.left ∧
    select_side .vertical 50 90 bbox0100 = Side.above := by
  refine ⟨rfl, rfl, rfl, rfl, rfl, rfl, ?_, ?_, ?_⟩ <;>
    norm_num [select_side, bbox0100, BBox.hcenter, BBox.vcenter]

/-- C9: the reposition routine is idempotent: for a fixed model state
(position, visibility, attachment), bounding box and element dimensions,
running `_reposition` twice in a row produces exactly the same element style
(display state, side class, `top`, `left`, `right`) as running it once. -/
theorem reposition_idempotent (position : Option Position) (visible : Bool)
    (attachment : TooltipAttachment) (bbox : BBox) (dims : ElDims)
    (st : ElStyle) :
    _reposition position visible attachment bbox dims
        (_reposition position visible attachment bbox dims st) =
      _reposition position visible attachment bbox dims st := by
  rcases position with _ | pos
  · rfl
  · cases visible
    · rfl
    · show _reposition (some pos) true attachment bbox dims
          (_reposition (some pos) true attachment bbox dims st) =
        _reposition (some pos) true attachment bbox dims st
      simp only [_reposition]

/-- `core/enums`: `HoverMode = "mouse" | "hline" | "vline"`. -/
inductive HoverMode where
  | mouse
  | vline
  | hline
deriving DecidableEq, Repr

/-- `core/enums`: `MutedPolicy = "show" | "ignore"`. -/
inductive MutedPolicy where
  | show_policy
  | ignore
deriving DecidableEq, Repr

/-- A screen coordinate that may be the JavaScript `Infinity` sentinel
(`Option.none` models `Infinity`; `some q` a finite coordinate). -/
def Coord : Type := Option ℚ

/-- A geometry whose coordinates may be the `(Infinity, Infinity)` sentinel,
as built by `HoverToolView._inspect`. -/
inductive CGeometry where
  | point (sx sy : Coord)
  | span (direction : SpanDirection) (sx sy : Coord)

/-- The geometry construction of `HoverToolView._inspect` (lines 206 to 213):
`mouse` mode gives a point geometry; otherwise a span whose direction is `h`
for `vline` mode and `v` for `hline` mode. -/
def build_geometry (mode : HoverMode) (sx sy : Coord) : CGeometry :=
  match mode with
  | .mouse => .point sx sy
  | .vline => .span .h sx sy
  | .hline => .span .v sx sy

/-- The structured index sets returned by a renderer selection evaluation
(`Selection`): plain indices, line segment indices, the nested multi-segment
index map, and image-cell indices. -/
structure SelectionIndexSet where
  indices : List ℕ
  line_indices : List ℕ
  multiline_indices : List (ℕ × List ℕ)
  image_indices : List ℕ
deriving DecidableEq, Repr

/-- The all-empty selection. -/
def SelectionIndexSet.empty : SelectionIndexSet :=
  { indices := [], line_indices := [], multiline_indices := [], image_indices := [] }

def SelectionIndexSet.is_empty (s : SelectionIndexSet) : Bool :=
  s.indices.isEmpty && s.line_indices.isEmpty && s.multiline_indices.isEmpty
    && s.image_indices.isEmpty

/-- Modelled from the spec: the renderer selection evaluator
(`sm.inspect(rview, geometry)`, external to the sources) applied to one
renderer.  Each renderer with a resolvable view is abstracted by its
finite-geometry hit test `hit`; per the spec, the geometry with coordinates at
`Infinity` is the canonical clear/no-hit query and evaluates to the empty
selection for every renderer. -/
def evaluate (hit : ℚ → ℚ → SelectionIndexSet) (g : CGeometry) : SelectionIndexSet :=
  let coords : Coord × Coord :=
    match g with
    | .point sx sy => (sx, sy)
    | .span _ sx sy => (sx, sy)
  match coords with
  | (some sx, some sy) => hit sx sy
  | _ => SelectionIndexSet.empty

/-- Modelled from the spec: the bounding box membership test
`this.plot_view.frame.bbox.contains(sx, sy)` (external to the sources),
extended to sentinel coordinates: an infinite coordinate lies outside every
box. -/
def BBox.contains (b : BBox) (sx sy : Coord) : Bool :=
  (match sx with | some x => decide (b.left ≤ x ∧ x ≤ b.right) | none => false)
    && (match sy with | some y => decide (b.top ≤ y ∧ y ≤ b.bottom) | none => false)

/-- The hover controller state that `_move`/`_clear`/`_inspect` touch: the
per-renderer side-channel inspection results, and the position of every
`Tooltip` in the renderer-to-tooltip map (`Option.none` = hidden). -/
structure HoverState where
  inspections : List SelectionIndexSet
  tooltip_positions : List (Option (ℚ × ℚ))
deriving DecidableEq, Repr

/-- `HoverToolView._inspect` (lines 206 to 223): build the geometry for the
current mode and run every computed renderer's selection evaluation on it
(`hits` lists the hit tests of the renderers with a resolvable view, which
are the ones the source inspects; the callback emission has no effect on
this state). -/
def hover_inspect (mode : HoverMode) (hits : List (ℚ → ℚ → SelectionIndexSet))
    (sx sy : Coord) (st : HoverState) : HoverState :=
  let geometry := build_geometry mode sx sy
  { st with inspections := hits.map (fun h => evaluate h geometry) }

/-- `HoverToolView._clear` (lines 184 to 190): run the inspection with the
`(Infinity, Infinity)` sentinel, then `clear()` every tooltip of the
renderer-to-tooltip map, i.e. set its position to null (`Tooltip.clear`,
lines 854 to 856). -/
def hover_clear (mode : HoverMode) (hits : List (ℚ → ℚ → SelectionIndexSet))
    (st : HoverState) : HoverState :=
  let st1 := hover_inspect mode hits none none st
  { st1 with tooltip_positions := st1.tooltip_positions.map (fun _ => none) }

/-- `HoverToolView._move` (lines 192 to 200): do nothing when the tool is
inactive; clear when the pointer is outside the frame content box; inspect
otherwise. -/
def hover_move (active : Bool) (mode : HoverMode)
    (hits : List (ℚ → ℚ → SelectionIndexSet)) (frame : BBox) (sx sy : Coord)
    (st : HoverState) : HoverState :=
  if active = false then st
  else if BBox.contains frame sx sy = false then hover_clear mode hits st
  else hover_inspect mode hits sx sy st

/-- C4: for every pointer position outside the frame content box, the active
pointer-move handler clears: the inspection runs with the sentinel
`(Infinity, Infinity)` geometry, so the resulting inspection state is the
empty selection for every renderer, and every tooltip of the
renderer-to-tooltip map has its position set to null while the map itself
keeps all its tooltips (hidden, not destroyed). -/
theorem move_outside_frame_clears (active : Bool) (mode : HoverMode)
    (hits : List (ℚ → ℚ → SelectionIndexSet)) (frame : BBox) (sx sy : Coord)
    (st : HoverState) (hact : active = true)
    (hout : BBox.contains frame sx sy = false) :
    (hover_move active mode hits frame sx sy st).inspections =
      hits.map (fun _ => SelectionIndexSet.empty) ∧
    (hover_move active mode hits frame sx sy st).tooltip_positions =
      st.tooltip_positions.map (fun _ => none) ∧
    (hover_move active mode hits frame sx sy st).tooltip_positions.length =
      st.tooltip_positions.length := by
  subst hact
  have hmove : hover_move true mode hits frame sx sy st = hover_clear mode hits st := by
    simp [hover_move, hout]
  rw [hmove]
  refine ⟨?_, ?_, ?_⟩
  · cases mode <;> rfl
  · rfl
  · simp [hover_clear, hover_inspect]

/-- A concrete hit test used by the C4 witness: it reports plain index 1 at
every finite query. -/
def witness_hit : ℚ → ℚ → SelectionIndexSet :=
  fun _ _ => { indices := [1], line_indices := [], multiline_indices := [], image_indices := [] }

/-- A concrete hover state used by the C4 witness: a stale nonempty
inspection and one visible tooltip. -/
def witness_state : HoverState :=
  { inspections := [{ indices := [2], line_indices := [3], multiline_indices := [],
                      image_indices := [] }],
    tooltip_positions := [some (3, 4)] }

theorem move_outside_frame_clears_witness :
    true = true ∧
    BBox.contains bbox0100 (some 200) (some 50) = false ∧
    (hover_move true .mouse [witness_hit] bbox0100 (some 200) (some 50)
        witness_state).inspections = [SelectionIndexSet.empty] ∧
    (hover_move true .mouse [witness_hit] bbox0100 (some 200) (some 50)
        witness_state).tooltip_positions = [none] := by
  have hout : BBox.contains bbox0100 (some 200) (some 50) = false := by
    norm_num [BBox.contains, bbox0100]
  have h := move_outside_frame_clears true .mouse [witness_hit] bbox0100
    (some 200) (some 50) witness_state rfl hout
  exact ⟨rfl, hout, h.1, by rw [h.2.1]; rfl⟩

/-- The per-hit payload assembled by `HoverToolView._update`: screen
coordinates and the rendered content (`null` when the tooltip specification
renders nothing). -/
structure TooltipState where
  position : Option (ℚ × ℚ)
  content : List ℕ
deriving DecidableEq, Repr

/-- `HoverToolView._update` (lines 225 to 444) as a transformer of one
renderer's tooltip state.  The guard sequence is transcribed from the source:
inactive tool, a geometry that is neither point nor span, the
`muted_policy == "ignore" && renderer.muted` check, a renderer without a
tooltip in the map, the empty-and-no-view selection check (which clears), and
a missing renderer view.  The per-glyph assembly of the
`[tt_sx, tt_sy, rendered]` triples is abstracted as the `hits` argument
(content nodes are opaque ids); an empty list clears the tooltip, otherwise
the content container is emptied, filled with the non-null rendered nodes,
and the position is set to the last hit. -/
def hover_update (active : Bool) (geom_ok : Bool) (muted_policy : MutedPolicy)
    (muted : Bool) (has_tooltip : Bool) (fullset_empty_no_view : Bool)
    (has_renderer_view : Bool) (hits : List (ℚ × ℚ × Option ℕ))
    (st : TooltipState) : TooltipState :=
  if active = false then st
  else if geom_ok = false then st
  else if muted_policy = MutedPolicy.ignore ∧ muted = true then st
  else if has_tooltip = false then st
  else if fullset_empty_no_view = true then { st with position := none }
  else if has_renderer_view = false then st
  else
    match hits.getLast? with
    | Option.none => { st with position := none }
    | some last =>
      { position := some (last.1, last.2.1),
        content := hits.filterMap (fun h => h.2.2) }

/-- C8: when the muted policy is `ignore` and the renderer's muted flag is
set, the per-move update step returns the tooltip state unchanged for every
combination of the remaining inputs: the hits are ignored entirely, and the
tooltip position and content after the update equal their values before it
(in particular the tooltip is not cleared). -/
theorem muted_ignore_no_mutation (active : Bool) (geom_ok : Bool)
    (muted_policy : MutedPolicy) (muted : Bool) (has_tooltip : Bool)
    (fullset_empty_no_view : Bool) (has_renderer_view : Bool)
    (hits : List (ℚ × ℚ × Option ℕ)) (st : TooltipState)
    (hpol : muted_policy = MutedPolicy.ignore) (hmut : muted = true) :
    hover_update active geom_ok muted_policy muted has_tooltip
      fullset_empty_no_view has_renderer_view hits st = st := by
  subst hpol hmut
  cases active
  · rfl
  · cases geom_ok
    · rfl
    · simp [hover_update]

theorem muted_ignore_no_mutation_witness :
    MutedPolicy.ignore = MutedPolicy.ignore ∧ true = true ∧
    hover_update true true MutedPolicy.ignore true true false true
        [(1, 2, some 5)] { position := some (9, 9), content := [3] } =
      { position := some (9, 9), content := [3] } :=
  ⟨rfl, rfl,
    muted_ignore_no_mutation true true MutedPolicy.ignore true true false true
      [(1, 2, some 5)] { position := some (9, 9), content := [3] } rfl rfl⟩

/-- A data renderer as dispatched on by `HoverToolView._update_ttmodels`:
a glyph renderer, or a relation (graph) renderer holding its node and edge
glyph renderers.  Renderers are identified by opaque numeric ids. -/
inductive DataRenderer where
  | glyph (id : ℕ)
  | graph (node edge : ℕ)
deriving DecidableEq, Repr

/-- The map entries one loop iteration of `_update_ttmodels` (lines 131 to
145) adds for renderer `r`, where `t` identifies the `new Tooltip(...)`
allocated at the top of that iteration: a glyph renderer maps itself to `t`;
a graph renderer maps both its node renderer and its edge renderer to the
same freshly allocated tooltip `t`. -/
def tt_entries (r : DataRenderer) (t : ℕ) : List (ℕ × ℕ) :=
  match r with
  | .glyph id => [(id, t)]
  | .graph node edge => [(node, t), (edge, t)]

/-- The loop of `_update_ttmodels` over the computed renderers, threading the
allocation counter: iteration `k` allocates tooltip identity `k`. -/
def update_ttmodels_aux : List DataRenderer → ℕ → List (ℕ × ℕ)
  | [], _ => []
  | r :: rest, k => tt_entries r k ++ update_ttmodels_aux rest (k + 1)

/-- `HoverToolView._update_ttmodels` (lines 123 to 145) restricted to the
renderer-to-tooltip map it rebuilds: the map is cleared, and when the tooltip
specification is null it stays empty; otherwise one `Tooltip` is allocated
per computed renderer and the entries above are inserted in order.  Tooltip
identity is modelled by the allocation counter (distinct allocations are
distinct `Tooltip` instances). -/
def update_ttmodels (tooltips_nonnull : Bool) (rs : List DataRenderer) :
    List (ℕ × ℕ) :=
  if tooltips_nonnull then update_ttmodels_aux rs 0 else []

/-- Lookup in the rebuilt map, with the `Map.set` semantics that a later
insertion for the same key wins. -/
def ttLookup (m : List (ℕ × ℕ)) (key : ℕ) : Option ℕ :=
  (m.reverse.find? (fun e => e.1 == key)).map (fun e => e.2)

theorem update_ttmodels_aux_graph_mem (rs : List DataRenderer) (node edge : ℕ)
    (h : DataRenderer.graph node edge ∈ rs) (k : ℕ) :
    ∃ t, (node, t) ∈ update_ttmodels_aux rs k ∧
      (edge, t) ∈ update_ttmodels_aux rs k := by
  induction rs generalizing k with
  | nil => cases h
  | cons r rest ih =>
    rcases List.mem_cons.mp h with hr | hr
    · subst hr
      exact ⟨k, List.mem_append_left _ (by simp [tt_entries]),
        List.mem_append_left _ (by simp [tt_entries])⟩
    · obtain ⟨t, h1, h2⟩ := ih hr (k + 1)
      exact ⟨t, List.mem_append_right _ h1, List.mem_append_right _ h2⟩

/-- C6 counterexample: for the single relation renderer with node renderer 0
and edge renderer 1, the rebuilt map binds both underlying renderers to the
same `Tooltip` instance (the one allocated for the relation renderer), so the
node renderer and the edge renderer do not each get their own distinct
`Tooltip` instance. -/
theorem graph_tooltip_shared_instance :
    ttLookup (update_ttmodels true [DataRenderer.graph 0 1]) 0 =
      ttLookup (update_ttmodels true [DataRenderer.graph 0 1]) 1 ∧
    ttLookup (update_ttmodels true [DataRenderer.graph 0 1]) 0 = some 0 ∧
    ttLookup (update_ttmodels true [DataRenderer.graph 0 1]) 1 = some 0 := by
  refine ⟨rfl, rfl, rfl⟩

/-- C6 amended: after every rebuild of the renderer-to-tooltip mapping with a
non-null tooltip specification, each relation (graph) renderer in the
computed renderer set contributes map entries for both of its two underlying
renderers (node and edge), and both entries are bound to one and the same
`Tooltip` instance, allocated once for the relation renderer. -/
theorem graph_renderer_entries_shared (rs : List DataRenderer) (node edge : ℕ)
    (h : DataRenderer.graph node edge ∈ rs) :
    ∃ t, (node, t) ∈ update_ttmodels true rs ∧
      (edge, t) ∈ update_ttmodels true rs := by
  simpa [update_ttmodels] using update_ttmodels_aux_graph_mem rs node edge h 0

theorem graph_renderer_entries_shared_witness :
    DataRenderer.graph 5 7 ∈ [DataRenderer.glyph 2, DataRenderer.graph 5 7] ∧
    ∃ t, (5, t) ∈ update_ttmodels true [DataRenderer.glyph 2, DataRenderer.graph 5 7] ∧
      (7, t) ∈ update_ttmodels true [DataRenderer.glyph 2, DataRenderer.graph 5 7] :=
  ⟨by decide,
    graph_renderer_entries_shared [DataRenderer.glyph 2, DataRenderer.graph 5 7] 5 7
      (by decide)⟩

/-- A JavaScript word character, the `\w` class of the template directive
regular expressions: ASCII letters, digits and underscore. -/
def isWordChar (c : Char) : Bool :=
  c.isAlphanum || c == '_'

/-- Substring occurrence test, the `opts.indexOf(pat) >= 0` checks of
`_render_template`. -/
def occursAux (pat : List Char) : List Char → Bool
  | [] => pat.isEmpty
  | c :: rest => pat.isPrefixOf (c :: rest) || occursAux pat rest

def occurs (pat s : String) : Bool :=
  occursAux pat.data s.data

/-- First-occurrence replacement, the JavaScript semantics of
`value.replace("$~", "$data_")`. -/
def replaceFirstAux (pat repl : List Char) : List Char → List Char
  | [] => []
  | c :: rest =>
    if pat.isPrefixOf (c :: rest) then repl ++ (c :: rest).drop pat.length
    else c :: replaceFirstAux pat repl rest

def replaceFirst (s pat repl : String) : String :=
  String.mk (replaceFirstAux pat.data repl.data s.data)

/-- Leftmost match of the directive regex `\$swatch:(\w*)` of
`_render_template` (line 506), returning the captured column name. -/
def swatchMatchAux : List Char → Option String
  | '$' :: 's' :: 'w' :: 'a' :: 't' :: 'c' :: 'h' :: ':' :: rest =>
    some (String.mk (rest.takeWhile isWordChar))
  | _ :: rest => swatchMatchAux rest
  | [] => Option.none

def swatchMatch (s : String) : Option String :=
  swatchMatchAux s.data

/-- Greedy position of the closing bracket of `\[.*\]` followed by `:`:
the largest index `j` such that `more` has `]` at `j` immediately followed by
`:`, with no newline among the characters the `.*` must span (a JavaScript
`.` does not match a newline). -/
def bracketIdx (more : List Char) : Option ℕ :=
  ((List.range more.length).filter (fun j =>
      (more.get? j == some ']') && (more.get? (j + 1) == some ':')
        && !((more.take j).contains '\n'))).getLast?

/-- Match of the tail `(\[.*\])?:(\w*)` of the color directive regex after a
literal `$color`, returning the captured options (the empty string when the
optional bracket group is absent, matching the `opts = ""` default of the
destructuring in the source) and the captured column name. -/
def colorTail (rest : List Char) : Option (String × String) :=
  match rest with
  | '[' :: more =>
    match bracketIdx more with
    | some j =>
      some (String.mk ('[' :: (more.take j ++ [']'])),
        String.mk ((more.drop (j + 2)).takeWhile isWordChar))
    | Option.none => Option.none
  | ':' :: more => some ("", String.mk (more.takeWhile isWordChar))
  | _ => Option.none

/-- Attempt of the color directive regex at the head of `cs`. -/
def tryColorAt (cs : List Char) : Option (String × String) :=
  match cs with
  | '$' :: 'c' :: 'o' :: 'l' :: 'o' :: 'r' :: rest => colorTail rest
  | _ => Option.none

/-- Leftmost match of the directive regex `\$color(\[.*\])?:(\w*)` of
`_render_template` (line 505). -/
def colorMatchAux : List Char → Option (String × String)
  | [] => Option.none
  | c :: rest =>
    match tryColorAt (c :: rest) with
    | some r => some r
    | Option.none => colorMatchAux rest

def colorMatch (s : String) : Option (String × String) :=
  colorMatchAux s.data

/-- The observable outcome of rendering one two-column template row value:
the text content of the value cell (initially empty, from the cloned
template), and the swatch cell's background color and display flag
(initially absent and undisplayed, from `_create_template`). -/
structure RowState where
  valueText : String
  swatchColor : Option String
  swatchDisplayed : Bool
deriving DecidableEq, Repr

/-- The per-row value rendering of `HoverToolView._render_template` (lines
497 to 564): `color2css`/`color2hex` abstract the external
`core/util/color` converters, `replace_ph` the external
`replace_placeholders` collaborator, `get_column` the data source's column
lookup (columns of literal numeric colors), and `i` is `vars.index`.  A row
whose value matches neither directive goes through placeholder substitution;
otherwise the `$swatch` branch and then the `$color` branch run exactly as in
the source (absent column: a `colname unknown` diagnostic; index not a
definite integer or out of range: a null color, rendered as `(null)` by the
color branch; otherwise the converted color text and, with the `swatch`
option, a displayed swatch). -/
def render_row_value (color2css color2hex : ℚ → String)
    (replace_ph : String → Option ℕ → String)
    (get_column : String → Option (List ℚ)) (i : Option ℕ) (value : String) :
    RowState :=
  let st0 : RowState :=
    { valueText := "", swatchColor := Option.none, swatchDisplayed := false }
  let sm := swatchMatch value
  let cm := colorMatch value
  if sm = Option.none ∧ cm = Option.none then
    { st0 with valueText := replace_ph (replaceFirst value "$~" "$data_") i }
  else
    let st1 :=
      match sm with
      | Option.none => st0
      | some colname =>
        match get_column colname with
        | Option.none => { st0 with valueText := colname ++ " unknown" }
        | some column =>
          let color : Option ℚ :=
            match i with
            | some n => column.get? n
            | Option.none => Option.none
          match color with
          | some c =>
            { st0 with swatchColor := some (color2css c), swatchDisplayed := true }
          | Option.none => st0
    match cm with
    | Option.none => st1
    | some oc =>
      match get_column oc.2 with
      | Option.none => { st1 with valueText := oc.2 ++ " unknown" }
      | some column =>
        let hex := occurs "hex" oc.1
        let swatch := occurs "swatch" oc.1
        let color : Option ℚ :=
          match i with
          | some n => column.get? n
          | Option.none => Option.none
        match color with
        | Option.none => { st1 with valueText := "(null)" }
        | some c =>
          let st2 :=
            { st1 with valueText := if hex then color2hex c else color2css c }
          if swatch then
            { st2 with swatchColor := some (color2css c), swatchDisplayed := true }
          else st2

/-- C5: for every two-column template row whose value expression is a
swatch/color directive (a `$color` directive, possibly with a `swatch`
rendering option and without the `hex` option): if the directive references
an existing column and the canonical index is a definite integer within the
column, the rendered value string equals the library's canonical CSS color
text (`color2css`) of the column value at that index; if it references an
absent column, the rendered value is the column name followed by the
`" unknown"` marker.  Rendering is a total function, so it never throws. -/
theorem swatch_directive_render (color2css color2hex : ℚ → String)
    (replace_ph : String → Option ℕ → String) (value opts colname : String)
    (h1 : swatchMatch value = Option.none)
    (h2 : colorMatch value = some (opts, colname))
    (h3 : occurs "hex" opts = false) :
    (∀ (get_column : String → Option (List ℚ)) (column : List ℚ) (n : ℕ) (c : ℚ),
      get_column colname = some column → column.get? n = some c →
      (render_row_value color2css color2hex replace_ph get_column (some n)
          value).valueText = color2css c) ∧
    (∀ (get_column : String → Option (List ℚ)) (i : Option ℕ),
      get_column colname = Option.none →
      (render_row_value color2css color2hex replace_ph get_column i
          value).valueText = colname ++ " unknown") := by
  constructor
  · intro get_column column n c hcol hval
    simp only [render_row_value, h1, h2]
    rw [if_neg (by simp)]
    simp only [hcol, hval, h3]
    cases occurs "swatch" opts <;> simp
  · intro get_column i hcol
    simp only [render_row_value, h1, h2]
    rw [if_neg (by simp)]
    simp [hcol]

/-- A concrete data source with one column `colors` of one numeric color. -/
def witness_column : String → Option (List ℚ) :=
  fun s => if s = "colors" then some [255] else Option.none

/-- A concrete data source with no columns. -/
def witness_no_column : String → Option (List ℚ) :=
  fun _ => Option.none

theorem swatch_directive_render_witness :
    swatchMatch "$color[swatch]:colors" = Option.none ∧
    colorMatch "$color[swatch]:colors" = some ("[swatch]", "colors") ∧
    occurs "hex" "[swatch]" = false ∧
    (render_row_value (fun _ => "rgb(255, 0, 0)") (fun _ => "#ff0000")
        (fun s _ => s) witness_column (some 0)
        "$color[swatch]:colors").valueText = "rgb(255, 0, 0)" ∧
    (render_row_value (fun _ => "rgb(255, 0, 0)") (fun _ => "#ff0000")
        (fun s _ => s) witness_no_column (some 0)
        "$color[swatch]:colors").valueText = "colors unknown" := by
  have h1 : swatchMatch "$color[swatch]:colors" = Option.none := by decide
  have h2 : colorMatch "$color[swatch]:colors" = some ("[swatch]", "colors") := by
    decide
  have h3 : occurs "hex" "[swatch]" = false := by decide
  have h := swatch_directive_render (fun _ => "rgb(255, 0, 0)") (fun _ => "#ff0000")
    (fun s _ => s) "$color[swatch]:colors" "[swatch]" "colors" h1 h2 h3
  exact ⟨h1, h2, h3,
    h.1 witness_column [255] 0 255 (by simp [witness_column]) rfl,
    h.2 witness_no_column (some 0) rfl⟩
